import Mathlib

/-!
# eeglab / fieldtrip-20090727: buffer client call, standalone server, array descriptor

Shallow embedding of

* `realtime/buffer/matlab/buffer_flushdat.c` (the `FLUSH_DAT` client call),
* `realtime/buffer/test/demo_buffer.c` (`main` of the standalone server),
* `classification/utilities/tprod/mxInfo.h` (element type tags, `MxInfo`,
  `isContiguous`).

Pointers are `Option`s (`none` is `NULL`), calls into code that is not part of
these files are taken from an environment, and every call a function makes is
recorded in a trace so that the order of calls can be stated.
-/

namespace Eeglab

/-! ## `buffer_flushdat.c` -/

/-- Modelled from the spec: the message envelope `messagedef_t` of `message.h`,
which is not among the sources.  The spec gives the envelope as
`version:uint16, command:uint16, bufsize:uint32`; the fields hold the unsigned
value as a natural number. -/
structure messagedef_t where
  version : Nat
  command : Nat
  bufsize : Nat
deriving DecidableEq, Repr

/-- The `message_t` of `message.h` as `buffer_flushdat` uses it: a pointer `def`
to the envelope and a pointer `buf` to the payload bytes (`none` is `NULL`). -/
structure message_t where
  def_ : Option messagedef_t
  buf : Option (List Nat)
deriving DecidableEq, Repr

/-- Number of payload bytes a message carries: a `NULL` buffer carries none. -/
def message_t.payloadLength (m : message_t) : Nat :=
  match m.buf with
  | none => 0
  | some bytes => bytes.length

/-- The constants of `message.h` that `buffer_flushdat` names.  The header is
not among the sources, so they are parameters; each is a value of the 16 bit
field it is stored in or compared with. -/
structure BufferH where
  VERSION : Nat
  FLUSH_DAT : Nat
  FLUSH_OK : Nat
  VERSION_lt : VERSION < 2 ^ 16
  FLUSH_DAT_lt : FLUSH_DAT < 2 ^ 16

/-- The functions `buffer_flushdat` calls that live outside the file.
`open_connection hostname port` gives the handle it returns (negative on
failure).  `clientrequest server request` gives its `int` result and what it
leaves in `*response_ptr`: `none` when no response was delivered and the
pointer is still `NULL`. -/
structure Env where
  open_connection : String → Int → Int
  clientrequest : Int → message_t → Int × Option message_t

/-- What `buffer_flushdat` does that is visible from outside, in order. -/
inductive Event where
  | open_connection (hostname : String) (port : Int) (ret : Int)
  | print_request (request : message_t)
  | clientrequest (server : Int) (request : message_t)
  | print_response (response : Option message_t)
  | close_connection (server : Int)
  | read_response_command (response : Option message_t)
  | mexErrMsgTxt (msg : String)
  | free_request
  | free_response
deriving DecidableEq, Repr

/-- How a call of `buffer_flushdat` ends: it returns, it leaves through
`mexErrMsgTxt` (which hands the message to the MATLAB caller and does not come
back), or it dereferences a `NULL` pointer. -/
inductive Outcome where
  | returned
  | error (msg : String)
  | nullDereference
deriving DecidableEq, Repr

/-- The call reported a failure to its caller. -/
def Outcome.reportsFailure : Outcome → Bool
  | .error _ => true
  | _ => false

/-- The message of line 43. -/
def socketErrorText : String := "ERROR: failed to create socket\n"

/-- The message of line 52. -/
def bufferErrorText : String := "ERROR: the buffer returned an error\n"

/-- `response->def->command`: `none` when `response` or `response->def` is `NULL`. -/
def responseCommand (response : Option message_t) : Option Nat :=
  match response with
  | none => none
  | some r =>
    match r.def_ with
    | none => none
    | some d => some d.command

/-- The request built in lines 34-39 (`malloc` is taken to succeed). -/
def flushRequest (K : BufferH) : message_t :=
  { def_ := some { version := K.VERSION % 2 ^ 16,
                   command := K.FLUSH_DAT % 2 ^ 16,
                   bufsize := 0 % 2 ^ 32 },
    buf := none }

/-- The body of `buffer_flushdat` from line 46 on, entered with an open
connection. -/
def flushExchange (K : BufferH) (env : Env) (verbose : Bool) (server : Int)
    (request : message_t) (t0 : List Event) : List Event × Outcome :=
  let t1 := if verbose then t0 ++ [Event.print_request request] else t0
  let response := (env.clientrequest server request).2
  let t2 := t1 ++ [Event.clientrequest server request]
  if verbose ∧ response = none then
    (t2, Outcome.nullDereference)
  else
    let t3 := if verbose then t2 ++ [Event.print_response response] else t2
    let t4 := t3 ++ [Event.close_connection server]
    let t5 := t4 ++ [Event.read_response_command response]
    match responseCommand response with
    | none => (t5, Outcome.nullDereference)
    | some command =>
      if command ≠ K.FLUSH_OK then
        (t5 ++ [Event.mexErrMsgTxt bufferErrorText], Outcome.error bufferErrorText)
      else
        (t5 ++ [Event.free_request, Event.free_response], Outcome.returned)

/-- `buffer_flushdat(hostname, port, plhs, prhs)`: the trace of calls and the
way the call ends.  `plhs` and `prhs` are not touched by the body. -/
def buffer_flushdat (K : BufferH) (env : Env) (hostname : String) (port : Int) :
    List Event × Outcome :=
  let verbose : Bool := false
  let request := flushRequest K
  let server := env.open_connection hostname port
  let t0 := [Event.open_connection hostname port server]
  if server < 0 then
    (t0 ++ [Event.mexErrMsgTxt socketErrorText], Outcome.error socketErrorText)
  else
    flushExchange K env verbose server request t0

/-- The requests handed to `clientrequest` in a trace. -/
def requestsSent : List Event → List message_t
  | [] => []
  | Event.clientrequest _ request :: rest => request :: requestsSent rest
  | _ :: rest => requestsSent rest

/-- The handles `close_connection` was called on in a trace. -/
def handlesClosed : List Event → List Int
  | [] => []
  | Event.close_connection server :: rest => server :: handlesClosed rest
  | _ :: rest => handlesClosed rest

/-- The protocol constants of fieldtrip's `message.h`. -/
def fieldtripConstants : BufferH :=
  { VERSION := 0x0001, FLUSH_DAT := 0x0302, FLUSH_OK := 0x0304,
    VERSION_lt := by decide, FLUSH_DAT_lt := by decide }

/-- A server that accepts the connection on handle 3 and answers `FLUSH_OK`. -/
def envOk : Env :=
  { open_connection := fun _ _ => 3,
    clientrequest := fun _ _ =>
      (0, some { def_ := some { version := 1, command := 0x0304, bufsize := 0 }, buf := none }) }

/-- A server that accepts the connection on handle 3 and answers `FLUSH_ERR`. -/
def envErr : Env :=
  { open_connection := fun _ _ => 3,
    clientrequest := fun _ _ =>
      (0, some { def_ := some { version := 1, command := 0x0305, bufsize := 0 }, buf := none }) }

/-- The connection opens on handle 3, then the exchange fails: `clientrequest`
returns -1 and leaves `*response_ptr` at `NULL`. -/
def envTransportFailure : Env :=
  { open_connection := fun _ _ => 3,
    clientrequest := fun _ _ => (-1, none) }

/-- The server cannot be reached: `open_connection` returns -1. -/
def envUnreachable : Env :=
  { open_connection := fun _ _ => -1,
    clientrequest := fun _ _ => (-1, none) }

/-! ## `demo_buffer.c` -/

/-- The `host_t` of `buffer.h`: a character array `name` and an `int port`. -/
structure host_t where
  name : String
  port : Int
deriving DecidableEq, Repr

/-- What `demo_buffer.c` takes from headers that are not among the sources: the
two default constants and the number of bytes in `host.name`. -/
structure DemoH where
  DEFAULT_HOSTNAME : String
  DEFAULT_PORT : Int
  nameSize : Nat

/-- Largest value of a C `int`. -/
def INT_MAX : Int := 2147483647

/-- Smallest value of a C `int`. -/
def INT_MIN : Int := -2147483648

/-- The output of a `printf` family format that is given no argument after the
format: `%%` writes one `%`, any other use of `%` asks for an argument that is
not there (undefined, `none`), every other character is copied. -/
def formatNoArgs : List Char → Option (List Char)
  | [] => some []
  | [c] => if c = '%' then none else some [c]
  | c :: d :: rest =>
    if c = '%' then
      if d = '%' then (formatNoArgs rest).map (fun out => '%' :: out) else none
    else (formatNoArgs (d :: rest)).map (fun out => c :: out)

/-- `sprintf(dst, format)` into an array of `size` bytes: the characters
written (without the closing NUL, one character standing for one byte), or
`none` when the call is undefined because the format asks for an argument or
the output does not fit. -/
def sprintf (size : Nat) (format : String) : Option String :=
  match formatNoArgs format.toList with
  | none => none
  | some out => if out.length + 1 ≤ size then some (String.mk out) else none

/-- C `isspace` in the "C" locale. -/
def isspace (c : Char) : Bool :=
  c = ' ' || (9 ≤ c.toNat && c.toNat ≤ 13)

/-- Value of a run of decimal digits. -/
def digitsValue (digits : List Char) : Nat :=
  digits.foldl (fun acc c => 10 * acc + (c.toNat - 48)) 0

/-- C `atoi`: skip white space, take an optional sign, then the longest run of
decimal digits (0 when there is none); `none` when the value is not an `int`. -/
def atoi (s : String) : Option Int :=
  let body := s.toList.dropWhile isspace
  let negative := body.head? = some '-'
  let unsigned := if body.head? = some '-' ∨ body.head? = some '+' then body.tail else body
  let magnitude : Int := digitsValue (unsigned.takeWhile Char.isDigit)
  let value : Int := if negative then -magnitude else magnitude
  if INT_MIN ≤ value ∧ value ≤ INT_MAX then some value else none

/-- Modelled from the spec: `tcpserver` (the Server Listener's `serve`), whose
code is not among the sources.  "bind failure is fatal and reported to the
caller": what a call that comes back to `main` reports, a normal shutdown or a
listening socket that could not be bound.  A `tcpserver` that ends the process
itself is outside this type. -/
inductive ListenerResult where
  | normalShutdown
  | bindFailure
deriving DecidableEq, Repr

/-- One run of `main`: the host handed to `tcpserver`, how the listener ended,
and the value `main` returns as the exit status of the process. -/
structure MainRun where
  tcpserver_arg : host_t
  listener : ListenerResult
  exit_status : Int
deriving DecidableEq, Repr

/-- Lines 55-62 of `main`: filling in `host` from the argument vector.  `none`
when `sprintf` or `atoi` is undefined on the argument. -/
def fillHost (H : DemoH) (argv : List String) : Option host_t :=
  let argc : Int := argv.length
  if argc > 2 then
    match argv[1]?, argv[2]? with
    | some arg1, some arg2 =>
      match sprintf H.nameSize arg1, atoi arg2 with
      | some name, some port => some { name := name, port := port }
      | _, _ => none
    | _, _ => none
  else
    match sprintf H.nameSize H.DEFAULT_HOSTNAME with
    | some name => some { name := name, port := H.DEFAULT_PORT }
    | none => none

/-- `main(argc, argv)` of `demo_buffer.c`, for the runs in which
`check_datatypes` and `tcpserver` return: fill in `host`, call `tcpserver` on
it, drop what came of the call, `return 0`. -/
def main (H : DemoH) (tcpserver : host_t → ListenerResult) (argv : List String) :
    Option MainRun :=
  match fillHost H argv with
  | none => none
  | some host =>
    let listener := tcpserver host
    some { tcpserver_arg := host, listener := listener, exit_status := 0 }

/-- The defaults of fieldtrip's `buffer.h`, with a 256 byte `host.name`. -/
def fieldtripDefaults : DemoH :=
  { DEFAULT_HOSTNAME := "localhost", DEFAULT_PORT := 1972, nameSize := 256 }

/-! ## `mxInfo.h` -/

/-- `typedef int MxInfoDTypes;` -/
abbrev MxInfoDTypes := Int

def LOGICAL_DTYPE : Int := 3
def CHAR_DTYPE : Int := 4
def DOUBLE_DTYPE : Int := 6
def SINGLE_DTYPE : Int := 7
def INT8_DTYPE : Int := 8
def UINT8_DTYPE : Int := 9
def INT16_DTYPE : Int := 10
def UINT16_DTYPE : Int := 11
def INT32_DTYPE : Int := 12
def UINT32_DTYPE : Int := 13
def INT64_DTYPE : Int := 14
def UINT64_DTYPE : Int := 15

/-- Every tag the header defines (lines 45-56), in the order of the header. -/
def definedTags : List Int :=
  [LOGICAL_DTYPE, CHAR_DTYPE, DOUBLE_DTYPE, SINGLE_DTYPE, INT8_DTYPE, UINT8_DTYPE,
   INT16_DTYPE, UINT16_DTYPE, INT32_DTYPE, UINT32_DTYPE, INT64_DTYPE, UINT64_DTYPE]

/-- An integer is a recognised element type when the header defines it as a tag. -/
def isElementTypeTag (n : Int) : Bool := definedTags.contains n

/-- The element kinds the spec lists for an array descriptor, in its order. -/
inductive ElementType where
  | bool | char | double | float | int8 | uint8
  | int16 | uint16 | int32 | uint32 | int64 | uint64
deriving DecidableEq, Repr

/-- All element kinds, in the order of the spec. -/
def ElementType.all : List ElementType :=
  [.bool, .char, .double, .float, .int8, .uint8, .int16, .uint16, .int32, .uint32,
   .int64, .uint64]

/-- The tag the header defines for an element kind. -/
def ElementType.tag : ElementType → Int
  | .bool => LOGICAL_DTYPE
  | .char => CHAR_DTYPE
  | .double => DOUBLE_DTYPE
  | .float => SINGLE_DTYPE
  | .int8 => INT8_DTYPE
  | .uint8 => UINT8_DTYPE
  | .int16 => INT16_DTYPE
  | .uint16 => UINT16_DTYPE
  | .int32 => INT32_DTYPE
  | .uint32 => UINT32_DTYPE
  | .int64 => INT64_DTYPE
  | .uint64 => UINT64_DTYPE

/-- The `MxInfo` struct (lines 63-71) without its two data pointers `rp` and
`ip`: `sz` and `stride` are the arrays the pointers of the struct point to. -/
structure MxInfo where
  nd : Int
  numel : Int
  sz : List Int
  stride : List Int
  dtype : MxInfoDTypes
deriving DecidableEq, Repr

/-- Reading `a[i]` from a C array: `none` when `i` is outside the array. -/
def readAt (a : List Int) (i : Int) : Option Int :=
  if i < 0 then none else a[i.toNat]?

/-- Modelled from the spec: `isContiguous`, declared in line 84 with its body in
`mxInfo.c`, which is not among the sources.  "contiguity holds iff
`strides[0]==1` and each subsequent stride equals the product of preceding
sizes": entry 0 is checked against 1 and entry `k+1`, for `k` below `nd`,
against the product of the first `k+1` sizes. -/
def isContiguous (info : MxInfo) : Bool :=
  info.stride[0]? == some 1 &&
    (List.range info.nd.toNat).all fun k =>
      info.stride[k + 1]? == some (info.sz.take (k + 1)).prod

/-- The layout the struct documents: `nd` sizes, `nd + 1` strides ("up to 1
past nd") and `numel` the total number of elements. -/
def MxInfo.WellFormed (info : MxInfo) : Prop :=
  (info.sz.length : Int) = info.nd ∧ (info.stride.length : Int) = info.nd + 1 ∧
    info.numel = info.sz.prod

/-- A contiguous 2 x 3 matrix of doubles. -/
def matrix2x3 : MxInfo :=
  { nd := 2, numel := 6, sz := [2, 3], stride := [1, 2, 6], dtype := DOUBLE_DTYPE }

/-! ## Theorems about `buffer_flushdat` -/

/-- With `verbose` off and an open connection, the exchange is: request, close,
read the command of the response, then decide. -/
theorem flushExchange_quiet (K : BufferH) (env : Env) (server : Int) (request : message_t)
    (t0 : List Event) :
    flushExchange K env false server request t0 =
      match responseCommand (env.clientrequest server request).2 with
      | none =>
        (t0 ++ [Event.clientrequest server request, Event.close_connection server,
                Event.read_response_command (env.clientrequest server request).2],
          Outcome.nullDereference)
      | some command =>
        if command ≠ K.FLUSH_OK then
          (t0 ++ [Event.clientrequest server request, Event.close_connection server,
                  Event.read_response_command (env.clientrequest server request).2,
                  Event.mexErrMsgTxt bufferErrorText],
            Outcome.error bufferErrorText)
        else
          (t0 ++ [Event.clientrequest server request, Event.close_connection server,
                  Event.read_response_command (env.clientrequest server request).2,
                  Event.free_request, Event.free_response],
            Outcome.returned) := by
  unfold flushExchange
  dsimp only
  cases responseCommand (env.clientrequest server request).2 with
  | none => simp
  | some command => by_cases h : command = K.FLUSH_OK <;> simp [h]

/-- The two error texts differ. -/
theorem socketErrorText_ne_bufferErrorText : socketErrorText ≠ bufferErrorText := by
  decide

/-- The request of lines 34-39 carries the constants unchanged. -/
theorem flushRequest_eq (K : BufferH) :
    flushRequest K =
      { def_ := some { version := K.VERSION, command := K.FLUSH_DAT, bufsize := 0 },
        buf := none } := by
  simp only [flushRequest, Nat.mod_eq_of_lt K.VERSION_lt, Nat.mod_eq_of_lt K.FLUSH_DAT_lt,
    Nat.zero_mod]

/-- C1: after a successful `open_connection`, for every response the exchange
delivers, `buffer_flushdat` reports a failure to its caller exactly when the
command of the response differs from `FLUSH_OK` (the failure is then the
"buffer returned an error" text), and it returns normally when the command is
`FLUSH_OK`. -/
theorem buffer_flushdat_failure_iff_not_flush_ok (K : BufferH) (env : Env)
    (hostname : String) (port : Int) (d : messagedef_t) (buf : Option (List Nat))
    (hopen : 0 ≤ env.open_connection hostname port)
    (hresponse : (env.clientrequest (env.open_connection hostname port) (flushRequest K)).2 =
      some { def_ := some d, buf := buf }) :
    ((buffer_flushdat K env hostname port).2.reportsFailure = true ↔ d.command ≠ K.FLUSH_OK) ∧
    (d.command ≠ K.FLUSH_OK →
      (buffer_flushdat K env hostname port).2 = Outcome.error bufferErrorText) ∧
    (d.command = K.FLUSH_OK → (buffer_flushdat K env hostname port).2 = Outcome.returned) := by
  have hnot : ¬ env.open_connection hostname port < 0 := not_lt.mpr hopen
  have hrun : (buffer_flushdat K env hostname port).2 =
      if d.command ≠ K.FLUSH_OK then Outcome.error bufferErrorText else Outcome.returned := by
    simp only [buffer_flushdat, if_neg hnot, flushExchange_quiet, hresponse, responseCommand]
    by_cases h : d.command = K.FLUSH_OK <;> simp [h]
  rw [hrun]
  by_cases h : d.command = K.FLUSH_OK <;> simp [h, Outcome.reportsFailure]

/-- C1 at a server that answers `FLUSH_ERR` (0x0305). -/
theorem buffer_flushdat_failure_iff_not_flush_ok_witness :
    0 ≤ envErr.open_connection "localhost" 1972 ∧
    ((buffer_flushdat fieldtripConstants envErr "localhost" 1972).2.reportsFailure = true ↔
      (0x0305 : Nat) ≠ fieldtripConstants.FLUSH_OK) :=
  ⟨by decide,
    (buffer_flushdat_failure_iff_not_flush_ok fieldtripConstants envErr "localhost" 1972
      { version := 1, command := 0x0305, bufsize := 0 } none (by decide) rfl).1⟩

/-- Whenever the connection opens and the exchange leaves the response pointer
at `NULL`, the call closes the connection, reads the command of the missing
response and ends in a `NULL` dereference. -/
theorem buffer_flushdat_of_no_response (K : BufferH) (env : Env) (hostname : String)
    (port : Int) (hopen : 0 ≤ env.open_connection hostname port)
    (hnone : (env.clientrequest (env.open_connection hostname port) (flushRequest K)).2 = none) :
    buffer_flushdat K env hostname port =
      ([Event.open_connection hostname port (env.open_connection hostname port),
        Event.clientrequest (env.open_connection hostname port) (flushRequest K),
        Event.close_connection (env.open_connection hostname port),
        Event.read_response_command none],
       Outcome.nullDereference) := by
  have hnot : ¬ env.open_connection hostname port < 0 := not_lt.mpr hopen
  simp [buffer_flushdat, hnot, flushExchange_quiet, hnone, responseCommand]

/-- C2: at a connection that opens and an exchange that fails without
delivering a response, `buffer_flushdat` closes the connection, then reads the
command of the response that is not there: the call ends in a `NULL`
dereference and no failure is reported to the caller. -/
theorem buffer_flushdat_transport_failure_reads_null :
    buffer_flushdat fieldtripConstants envTransportFailure "localhost" 1972 =
      ([Event.open_connection "localhost" 1972 3,
        Event.clientrequest 3 (flushRequest fieldtripConstants),
        Event.close_connection 3,
        Event.read_response_command none],
       Outcome.nullDereference) ∧
    (buffer_flushdat fieldtripConstants envTransportFailure "localhost" 1972).2.reportsFailure =
      false := by
  decide

/-- C3: when `open_connection` returns a negative handle, `buffer_flushdat`
reports the socket error and hands no request to `clientrequest`; the error it
reports when a response arrives whose command is not `FLUSH_OK` is a different
one. -/
theorem buffer_flushdat_unreachable_differs_from_rejected (K : BufferH) (env : Env)
    (hostname : String) (port : Int) (hneg : env.open_connection hostname port < 0) :
    (buffer_flushdat K env hostname port).2 = Outcome.error socketErrorText ∧
    requestsSent (buffer_flushdat K env hostname port).1 = [] ∧
    ∀ (env2 : Env) (hostname2 : String) (port2 : Int) (d : messagedef_t)
      (buf : Option (List Nat)),
      0 ≤ env2.open_connection hostname2 port2 →
      (env2.clientrequest (env2.open_connection hostname2 port2) (flushRequest K)).2 =
        some { def_ := some d, buf := buf } →
      d.command ≠ K.FLUSH_OK →
      ∃ msg, (buffer_flushdat K env2 hostname2 port2).2 = Outcome.error msg ∧
        msg ≠ socketErrorText := by
  refine ⟨?_, ?_, ?_⟩
  · simp [buffer_flushdat, hneg]
  · simp [buffer_flushdat, hneg, requestsSent]
  · intro env2 hostname2 port2 d buf hopen hresponse hcommand
    have hnot : ¬ env2.open_connection hostname2 port2 < 0 := not_lt.mpr hopen
    refine ⟨bufferErrorText, ?_, fun h => socketErrorText_ne_bufferErrorText h.symm⟩
    simp [buffer_flushdat, hnot, flushExchange_quiet, hresponse, responseCommand, hcommand]

/-- C3 at a server that cannot be reached. -/
theorem buffer_flushdat_unreachable_differs_from_rejected_witness :
    envUnreachable.open_connection "localhost" 1972 < 0 ∧
    (buffer_flushdat fieldtripConstants envUnreachable "localhost" 1972).2 =
      Outcome.error socketErrorText ∧
    requestsSent (buffer_flushdat fieldtripConstants envUnreachable "localhost" 1972).1 = [] :=
  ⟨by decide,
    (buffer_flushdat_unreachable_differs_from_rejected fieldtripConstants envUnreachable
      "localhost" 1972 (by decide)).1,
    (buffer_flushdat_unreachable_differs_from_rejected fieldtripConstants envUnreachable
      "localhost" 1972 (by decide)).2.1⟩

/-- C4: for every hostname and port, `buffer_flushdat` hands `clientrequest` no
request when the connection does not open and otherwise exactly one, with
`version = VERSION`, `command = FLUSH_DAT`, `bufsize = 0` and a `NULL` payload
buffer; in that request `bufsize` is the byte length of the payload. -/
theorem buffer_flushdat_request_is_empty_flush (K : BufferH) (env : Env)
    (hostname : String) (port : Int) :
    requestsSent (buffer_flushdat K env hostname port).1 =
      (if env.open_connection hostname port < 0 then []
       else [{ def_ := some { version := K.VERSION, command := K.FLUSH_DAT, bufsize := 0 },
               buf := none }]) ∧
    ∀ request ∈ requestsSent (buffer_flushdat K env hostname port).1,
      request.buf = none ∧
      ∃ d, request.def_ = some d ∧ d.version = K.VERSION ∧ d.command = K.FLUSH_DAT ∧
        d.bufsize = 0 ∧ d.bufsize = request.payloadLength := by
  have hsent : requestsSent (buffer_flushdat K env hostname port).1 =
      (if env.open_connection hostname port < 0 then []
       else [{ def_ := some { version := K.VERSION, command := K.FLUSH_DAT, bufsize := 0 },
               buf := none }]) := by
    by_cases hneg : env.open_connection hostname port < 0
    · simp [buffer_flushdat, hneg, requestsSent]
    · simp only [buffer_flushdat, if_neg hneg, flushExchange_quiet, flushRequest_eq]
      cases responseCommand (env.clientrequest (env.open_connection hostname port)
          { def_ := some { version := K.VERSION, command := K.FLUSH_DAT, bufsize := 0 },
            buf := none }).2 with
      | none => simp [requestsSent]
      | some command => by_cases h : command = K.FLUSH_OK <;> simp [h, requestsSent]
  refine ⟨hsent, ?_⟩
  intro request hmem
  rw [hsent] at hmem
  by_cases hneg : env.open_connection hostname port < 0
  · simp [hneg] at hmem
  · simp only [if_neg hneg, List.mem_singleton] at hmem
    subst hmem
    exact ⟨rfl, _, rfl, rfl, rfl, rfl, rfl⟩

/-- C9: `close_connection` is called on exactly the handle `open_connection`
returned when that handle is not negative, and not at all otherwise; when the
connection opened, the trace starts with the open, the request exchange, the
close on that handle and only then the read of the command of the response,
whatever the exchange delivered. -/
theorem buffer_flushdat_closes_once (K : BufferH) (env : Env) (hostname : String)
    (port : Int) :
    handlesClosed (buffer_flushdat K env hostname port).1 =
      (if env.open_connection hostname port < 0 then []
       else [env.open_connection hostname port]) ∧
    (env.open_connection hostname port < 0 ∨
      ∃ rest, (buffer_flushdat K env hostname port).1 =
        [Event.open_connection hostname port (env.open_connection hostname port),
         Event.clientrequest (env.open_connection hostname port) (flushRequest K),
         Event.close_connection (env.open_connection hostname port),
         Event.read_response_command
           (env.clientrequest (env.open_connection hostname port) (flushRequest K)).2] ++ rest ∧
        handlesClosed rest = []) := by
  by_cases hneg : env.open_connection hostname port < 0
  · simp [buffer_flushdat, hneg, handlesClosed]
  · simp only [buffer_flushdat, if_neg hneg, flushExchange_quiet]
    cases responseCommand (env.clientrequest (env.open_connection hostname port)
        (flushRequest K)).2 with
    | none => simp [handlesClosed, hneg]
    | some command =>
      by_cases h : command = K.FLUSH_OK <;> simp [h, handlesClosed, hneg]

/-! ## Theorems about `demo_buffer.c` -/

/-- A format without `%` is written out unchanged. -/
theorem formatNoArgs_of_no_percent : ∀ l : List Char, '%' ∉ l → formatNoArgs l = some l
  | [], _ => rfl
  | [c], h => by
    have hc : c ≠ '%' := fun e => h (e ▸ List.mem_cons_self _ _)
    unfold formatNoArgs
    rw [if_neg hc]
  | c :: d :: rest, h => by
    have hc : c ≠ '%' := fun e => h (e ▸ List.mem_cons_self _ _)
    have ih := formatNoArgs_of_no_percent (d :: rest) (fun hm => h (List.mem_cons_of_mem _ hm))
    unfold formatNoArgs
    rw [if_neg hc, ih]
    rfl

/-- `sprintf` copies a format that has no `%` and fits the array. -/
theorem sprintf_of_no_percent (size : Nat) (format : String) (hpercent : '%' ∉ format.toList)
    (hfits : format.length < size) : sprintf size format = some format := by
  have hlen : format.toList.length + 1 ≤ size := hfits
  unfold sprintf
  rw [formatNoArgs_of_no_percent _ hpercent]
  simp only [if_pos hlen]
  rfl

/-- With fewer than two arguments after the program name, `host` is filled
from the defaults (for a default host name without `%` that fits). -/
theorem fillHost_defaults (H : DemoH) (argv : List String) (hargc : argv.length ≤ 2)
    (hpercent : '%' ∉ H.DEFAULT_HOSTNAME.toList) (hfits : H.DEFAULT_HOSTNAME.length < H.nameSize) :
    fillHost H argv = some { name := H.DEFAULT_HOSTNAME, port := H.DEFAULT_PORT } := by
  have hnot : ¬ ((argv.length : Int) > 2) := by omega
  simp [fillHost, hnot, sprintf_of_no_percent _ _ hpercent hfits]

/-- With a host name and a port given, `host` is filled from `argv[1]` and
`atoi(argv[2])`, for a host name without `%` that fits. -/
theorem fillHost_arguments (H : DemoH) (arg0 arg1 arg2 : String) (more : List String)
    (port : Int) (hpercent : '%' ∉ arg1.toList) (hfits : arg1.length < H.nameSize)
    (hport : atoi arg2 = some port) :
    fillHost H (arg0 :: arg1 :: arg2 :: more) = some { name := arg1, port := port } := by
  have hargc : ((arg0 :: arg1 :: arg2 :: more).length : Int) > 2 := by
    simp only [List.length_cons]; push_cast; omega
  simp only [fillHost, if_pos hargc]
  simp [sprintf_of_no_percent _ _ hpercent hfits, hport]

/-- C5: with the host name `%%` and the port `1972` on the command line,
`sprintf(host.name, argv[1])` reads `argv[1]` as a format and the host passed
to `tcpserver` has the name `%`, which is not `argv[1]`. -/
theorem main_host_name_read_as_format :
    (main fieldtripDefaults (fun _ => ListenerResult.normalShutdown)
        ["demo_buffer", "%%", "1972"]).map (fun run => run.tcpserver_arg) =
      some { name := "%", port := 1972 } ∧
    ("%" : String) ≠ "%%" := by
  decide

/-! ## Theorems about `mxInfo.h` -/

/-- C7: the header defines twelve element type tags, one for each element kind
of the descriptor, pairwise distinct, with the values 3, 4, 6, 7, ..., 15 of the
MATLAB class ids; an integer is a recognised tag exactly when it is 3, 4 or in
6..15, so neither 5 nor 0 is one. -/
theorem definedTags_are_the_twelve_class_ids :
    definedTags.length = 12 ∧
    definedTags.Nodup ∧
    definedTags = [3, 4, 6, 7, 8, 9, 10, 11, 12, 13, 14, 15] ∧
    ElementType.all.map ElementType.tag = definedTags ∧
    (∀ e : ElementType, e ∈ ElementType.all) ∧
    Function.Injective ElementType.tag ∧
    (∀ n : Int, isElementTypeTag n = true ↔ n = 3 ∨ n = 4 ∨ (6 ≤ n ∧ n ≤ 15)) ∧
    isElementTypeTag 5 = false ∧
    isElementTypeTag 0 = false := by
  refine ⟨by decide, by decide, by decide, by decide, ?_, ?_, ?_, by decide, by decide⟩
  · intro e
    cases e <;> decide
  · intro a b h
    cases a <;> cases b <;> first | rfl | (exact absurd h (by decide))
  · intro n
    simp only [isElementTypeTag, definedTags, LOGICAL_DTYPE, CHAR_DTYPE, DOUBLE_DTYPE,
      SINGLE_DTYPE, INT8_DTYPE, UINT8_DTYPE, INT16_DTYPE, UINT16_DTYPE, INT32_DTYPE,
      UINT32_DTYPE, INT64_DTYPE, UINT64_DTYPE, List.contains_eq_any_beq, List.any_cons,
      List.any_nil, Bool.or_false, Bool.or_eq_true, beq_iff_eq]
    constructor <;> intro h <;> omega

/-- The check of `isContiguous`, entry by entry. -/
theorem isContiguous_eq_true_iff (info : MxInfo) :
    isContiguous info = true ↔
      info.stride[0]? = some 1 ∧
      ∀ k, k < info.nd.toNat → info.stride[k + 1]? = some (info.sz.take (k + 1)).prod := by
  simp [isContiguous, List.all_eq_true]

/-- Reading a C array at a non-negative index. -/
theorem readAt_of_nonneg (a : List Int) (i : Int) (h : 0 ≤ i) : readAt a i = a[i.toNat]? := by
  simp [readAt, not_lt.mpr h]

/-- In a contiguous descriptor every stride entry up to `nd` is the product of
the sizes before it. -/
theorem stride_entry_of_isContiguous (info : MxInfo) (hc : isContiguous info = true)
    (i : Int) (h0 : 0 ≤ i) (hi : i ≤ info.nd) :
    readAt info.stride i = some (info.sz.take i.toNat).prod := by
  obtain ⟨hzero, hall⟩ := (isContiguous_eq_true_iff info).mp hc
  rw [readAt_of_nonneg _ _ h0]
  by_cases hz : i = 0
  · subst hz
    simpa using hzero
  · have hk : i.toNat - 1 < info.nd.toNat := by omega
    have hstep := hall (i.toNat - 1) hk
    have e : i.toNat - 1 + 1 = i.toNat := by omega
    rw [e] at hstep
    exact hstep

/-- C8: for a descriptor with `nd` sizes, `nd + 1` strides and `numel` the
number of elements, `isContiguous` is true exactly when `stride[0] = 1` and
every later `stride[i]`, up to `i = nd`, is the product of `sz[0..i-1]`, with
`stride[nd]` equal to `numel`. -/
theorem isContiguous_iff_stride_products (info : MxInfo) (hwf : info.WellFormed) :
    isContiguous info = true ↔
      readAt info.stride 0 = some 1 ∧
      (∀ i : Int, 1 ≤ i → i ≤ info.nd →
        readAt info.stride i = some (info.sz.take i.toNat).prod) ∧
      readAt info.stride info.nd = some info.numel := by
  obtain ⟨hsz, _, hnumel⟩ := hwf
  have hnd : 0 ≤ info.nd := by omega
  constructor
  · intro hc
    refine ⟨?_, ?_, ?_⟩
    · simpa using stride_entry_of_isContiguous info hc 0 le_rfl hnd
    · intro i h1 hi
      exact stride_entry_of_isContiguous info hc i (by omega) hi
    · have hlast := stride_entry_of_isContiguous info hc info.nd hnd le_rfl
      have hlen : info.nd.toNat = info.sz.length := by omega
      rw [hlast, hnumel, hlen, List.take_length]
  · rintro ⟨hzero, hall, _⟩
    rw [isContiguous_eq_true_iff]
    refine ⟨?_, ?_⟩
    · simpa [readAt] using hzero
    · intro k hk
      have hstep := hall ((k : Int) + 1) (by omega) (by omega)
      rw [readAt_of_nonneg _ _ (by omega)] at hstep
      have e : ((k : Int) + 1).toNat = k + 1 := by omega
      rw [e] at hstep
      exact hstep

/-- C8 at a contiguous 2 x 3 matrix. -/
theorem isContiguous_iff_stride_products_witness :
    matrix2x3.WellFormed ∧ isContiguous matrix2x3 = true ∧
    readAt matrix2x3.stride matrix2x3.nd = some matrix2x3.numel :=
  ⟨⟨by decide, by decide, by decide⟩, by decide,
    ((isContiguous_iff_stride_products matrix2x3 ⟨by decide, by decide, by decide⟩).mp
      (by decide)).2.2⟩

end Eeglab
